import Mathlib

/-!
Shallow embedding of the heyhr-api recruitment backend (Node/Express + MySQL),
covering the job lifecycle routes, the application/notification orchestration,
the notification read-marking, and the PDF job-field extractor, together with
theorems settling the frozen claims about the specification.

Conventions:
* SQL rows are Lean structures; JSON-ish optional columns are `Option` fields.
* The two divergent `db.js` variants found in the repository are embedded in
  namespaces `DbJs` (src/src/db.js) and `Part002` (src/unnamed/part_002).
* Express handlers become pure functions from (caller, request data, db state)
  to (HTTP-level result, new db state); fire-and-forget notification tasks are
  modelled with explicit failure oracles, since their success is not awaited.
-/

namespace HeyHR

/-- Job lifecycle status; `db/schema.sql` declares ENUM('DRAFT','PUBLISHED','CLOSED'). -/
inductive JobStatus
  | DRAFT
  | PUBLISHED
  | CLOSED
deriving DecidableEq, Repr

/-- Embedded jobs row: the columns the lifecycle claims inspect (the remaining
descriptive columns behave uniformly under `updateJob` and are represented by
`title` and `salary`). -/
structure Job where
  id : Nat
  recruiter_id : Option Nat
  title : String
  salary : Option Int
  status : JobStatus
deriving DecidableEq, Repr

namespace DbJs

/-- closeJob from src/src/db.js: `UPDATE jobs SET status = 'DRAFT' WHERE id = :id`. -/
def closeJob (j : Job) : Job := { j with status := .DRAFT }

/-- reopenJob from src/src/db.js: `UPDATE jobs SET status = 'PUBLISHED' WHERE id = :id`. -/
def reopenJob (j : Job) : Job := { j with status := .PUBLISHED }

end DbJs

namespace Part002

/-- closeJob from src/unnamed/part_002: `UPDATE jobs SET status = 'CLOSED' WHERE id = :id`. -/
def closeJob (j : Job) : Job := { j with status := .CLOSED }

/-- reopenJob from src/unnamed/part_002: `UPDATE jobs SET status = 'PUBLISHED' WHERE id = :id`. -/
def reopenJob (j : Job) : Job := { j with status := .PUBLISHED }

end Part002

/-- Result of POST /:id/close and POST /:id/reopen in the jobs router
(second document of src/src/routes/candidate.js, lines 694-735). -/
inductive CloseRes
  | notFound
  | forbidden
  | badRequest
  | noContent
deriving DecidableEq, Repr

/-- POST /:id/close handler: 404 when the job is missing, 403 when not owned by
the caller, 400 unless the job is PUBLISHED, otherwise calls DbJs.closeJob and
answers 204. -/
def closeRoute (callerId : Nat) (job? : Option Job) : CloseRes × Option Job :=
  match job? with
  | none => (.notFound, none)
  | some job =>
    if job.recruiter_id ≠ some callerId then (.forbidden, some job)
    else if job.status ≠ .PUBLISHED then (.badRequest, some job)
    else (.noContent, some (DbJs.closeJob job))

/-- POST /:id/reopen handler: 404 / 403 as above, 400 unless the job is DRAFT,
otherwise calls DbJs.reopenJob and answers 204. -/
def reopenRoute (callerId : Nat) (job? : Option Job) : CloseRes × Option Job :=
  match job? with
  | none => (.notFound, none)
  | some job =>
    if job.recruiter_id ≠ some callerId then (.forbidden, some job)
    else if job.status ≠ .DRAFT then (.badRequest, some job)
    else (.noContent, some (DbJs.reopenJob job))

/-- Concrete PUBLISHED job owned by recruiter 1, used to evaluate the close route. -/
def jPub : Job := { id := 7, recruiter_id := some 1, title := "Eng", salary := none, status := .PUBLISHED }

/-- C1: the close handler does accept exactly the PUBLISHED jobs and rejects the
rest unchanged, but on success the mounted db layer (src/src/db.js closeJob)
sets the status to DRAFT, not CLOSED: evaluating the route on a concrete
PUBLISHED job yields 204 with status DRAFT, contradicting the claimed
PUBLISHED --close--> CLOSED transition (which the repository README and
db/schema.sql document). -/
theorem close_published_sets_draft_not_closed :
    closeRoute 1 (some jPub) = (.noContent, some { jPub with status := .DRAFT })
      ∧ ((closeRoute 1 (some jPub)).2.map Job.status ≠ some .CLOSED)
      ∧ (∀ s : JobStatus, s ≠ .PUBLISHED →
          closeRoute 1 (some { jPub with status := s })
            = (.badRequest, some { jPub with status := s })) := by
  refine ⟨rfl, by decide, ?_⟩
  intro s hs
  cases s <;> simp_all [closeRoute, jPub]

/-- C2: the two db-layer implementations of the close transition are not
extensionally equal: on every job the src/src/db.js variant sets DRAFT while
the src/unnamed/part_002 variant sets CLOSED, so the two disagree on every
input (while both reopen variants set PUBLISHED). -/
theorem closeJob_variants_diverge :
    (∀ j : Job, (DbJs.closeJob j).status = .DRAFT
        ∧ (Part002.closeJob j).status = .CLOSED
        ∧ DbJs.closeJob j ≠ Part002.closeJob j)
      ∧ DbJs.closeJob ≠ Part002.closeJob
      ∧ (∀ j : Job, DbJs.reopenJob j = Part002.reopenJob j) := by
  refine ⟨?_, ?_, ?_⟩
  · intro j
    refine ⟨rfl, rfl, ?_⟩
    intro h
    have := congrArg Job.status h
    simp [DbJs.closeJob, Part002.closeJob] at this
  · intro h
    have := congrArg (fun f => (f jPub).status) h
    simp [DbJs.closeJob, Part002.closeJob] at this
  · intro j
    rfl

/-- Embedded notifications row (db/schema.sql): `read_at` is NULL while unread;
the JSON `data` payload is represented by the component the claims inspect,
the `recent_applicants` application ids attached to the recruiter apply
notification. -/
structure NotificationRow where
  user_id : Nat
  type : Option String
  title : String
  message : Option String
  data_recent : List Nat := []
  read_at : Option Nat := none
deriving DecidableEq, Repr

/-- Notification created by the publish handler (and by job creation when the
job is created as PUBLISHED). -/
def publishNotification (callerId : Nat) (j : Job) : NotificationRow :=
  { user_id := callerId, type := some "JOB", title := "Job published",
    message := some ("Your job \"" ++ j.title ++ "\" was approved and published.") }

/-- Result of POST /:id/publish in the jobs router. -/
inductive PublishRes
  | notFound
  | forbidden
  | notDraft
  | ok (job : Job)
deriving DecidableEq, Repr

/-- POST /:id/publish handler (jobs router, lines 652-691): 404 / 403 checks,
then an idempotent early return of the current job when already PUBLISHED,
a 409 NotDraft unless the job is DRAFT, otherwise updateJob to PUBLISHED and a
fire-and-forget "Job published" notification to the calling recruiter. -/
def publishRoute (callerId : Nat) (job? : Option Job) :
    PublishRes × Option Job × List NotificationRow :=
  match job? with
  | none => (.notFound, none, [])
  | some current =>
    if current.recruiter_id ≠ some callerId then (.forbidden, some current, [])
    else if current.status = .PUBLISHED then (.ok current, some current, [])
    else if current.status ≠ .DRAFT then (.notDraft, some current, [])
    else
      let job : Job := { current with status := JobStatus.PUBLISHED }
      (.ok job, some job, [publishNotification callerId job])

/-- C4: for an owned job, publish moves DRAFT to PUBLISHED (with the publish
notification scheduled), is an error-free no-op on an already PUBLISHED job,
and answers 409 NotDraft leaving the job unchanged in the remaining (CLOSED)
case. -/
theorem publish_transitions (callerId : Nat) (job : Job)
    (hown : job.recruiter_id = some callerId) :
    (job.status = .DRAFT →
        publishRoute callerId (some job)
          = (.ok { job with status := .PUBLISHED }, some { job with status := .PUBLISHED },
              [publishNotification callerId { job with status := .PUBLISHED }]))
      ∧ (job.status = .PUBLISHED →
          publishRoute callerId (some job) = (.ok job, some job, []))
      ∧ (job.status = .CLOSED →
          publishRoute callerId (some job) = (.notDraft, some job, [])) := by
  refine ⟨fun h => ?_, fun h => ?_, fun h => ?_⟩ <;>
    simp [publishRoute, hown, h]

/-- Witness for `publish_transitions`: the already-PUBLISHED branch evaluated on
the concrete job `jPub`. -/
theorem publish_transitions_witness :
    publishRoute 1 (some jPub) = (.ok jPub, some jPub, []) :=
  (publish_transitions 1 jPub rfl).2.1 rfl

/-- Mapping from the string status values accepted by the routes to the schema
enum (route-level validation only ever lets DRAFT and PUBLISHED through). -/
def statusOfString (s : String) : Option JobStatus :=
  if s = "DRAFT" then some .DRAFT
  else if s = "PUBLISHED" then some .PUBLISHED
  else if s = "CLOSED" then some .CLOSED
  else none

/-- Request body of PATCH /:id in the jobs router: the embedded non-status
columns (`title`, `salary`), the raw `status` string when present, and the
remaining body keys (unknown keys are counted by Object.keys but stripped by
the zod schema). -/
structure JobPatchBody where
  title : Option String := none
  salary : Option Int := none
  status : Option String := none
  unknownKeys : List String := []
deriving DecidableEq, Repr

/-- Object.keys(req.body).some(key ≠ 'status') from the handler. -/
def JobPatchBody.hasNonStatusKey (b : JobPatchBody) : Bool :=
  b.title.isSome || b.salary.isSome || !b.unknownKeys.isEmpty

/-- Object.keys(req.body).length from the handler. -/
def JobPatchBody.keyCount (b : JobPatchBody) : Nat :=
  (if b.title.isSome then 1 else 0) + (if b.salary.isSome then 1 else 0)
    + (if b.status.isSome then 1 else 0) + b.unknownKeys.length

/-- Status-value validation of the PATCH handler: a present `status` must be
'DRAFT' or 'PUBLISHED', otherwise 400. -/
def statusValueInvalid (b : JobPatchBody) : Bool :=
  match b.status with
  | some s => decide (s ≠ "DRAFT" ∧ s ≠ "PUBLISHED")
  | none => false

/-- JobUpdateDraftSchema validation on the embedded fields: title must be
nonempty, salary nonnegative. -/
def draftFieldsInvalid (b : JobPatchBody) : Bool :=
  (match b.title with | some t => t.isEmpty | none => false)
    || (match b.salary with | some v => decide (v < 0) | none => false)

/-- updateJob of src/src/db.js restricted to the embedded columns: each column
present in the patch is written, the rest keep their value. -/
def applyJobPatch (j : Job) (title? : Option String) (salary? : Option Int)
    (status? : Option JobStatus) : Job :=
  { j with
    title := title?.getD j.title
    salary := match salary? with | some v => some v | none => j.salary
    status := status?.getD j.status }

/-- Result of PATCH /:id in the jobs router. -/
inductive PatchRes
  | notFound
  | forbidden
  | validationError
  | notDraft
  | ok (job : Job)
deriving DecidableEq, Repr

/-- PATCH /:id handler (jobs router, lines 574-649): 404 / 403 checks, then
status-value validation (400), then the NotDraft conflict when a non-status
key is present on a non-DRAFT job (409), then either the status-only update
branch or the zod-validated field update via updateJob (affectedRows = 0 when
the effective patch is empty, answering with the unchanged job). -/
def patchJobRoute (callerId : Nat) (job? : Option Job) (b : JobPatchBody) :
    PatchRes × Option Job :=
  match job? with
  | none => (.notFound, none)
  | some current =>
    if current.recruiter_id ≠ some callerId then (.forbidden, some current)
    else if statusValueInvalid b then (.validationError, some current)
    else if current.status ≠ .DRAFT ∧ b.hasNonStatusKey = true then
      (.notDraft, some current)
    else if b.status.isSome ∧ b.keyCount = 1 then
      let updated := applyJobPatch current none none (b.status.bind statusOfString)
      (.ok updated, some updated)
    else if draftFieldsInvalid b then (.validationError, some current)
    else if b.title.isNone ∧ b.salary.isNone ∧ b.status.isNone then
      (.ok current, some current)
    else
      let updated := applyJobPatch current b.title b.salary (b.status.bind statusOfString)
      (.ok updated, some updated)

/-- Body carrying a non-status key together with an invalid status value. -/
def patchBad : JobPatchBody := { title := some "x", status := some "CLOSED" }

/-- C3 counterexample: on the PUBLISHED job `jPub`, a PATCH body containing the
non-status key `title` together with status "CLOSED" is rejected with 400
ValidationError, not with the 409 Conflict the claim promises for every body
containing a key other than `status` (the status-value check runs first). -/
theorem patch_nondraft_not_always_conflict :
    patchJobRoute 1 (some jPub) patchBad = (.validationError, some jPub)
      ∧ (patchJobRoute 1 (some jPub) patchBad).1 ≠ .notDraft := by
  exact ⟨rfl, by decide⟩

/-- C3 amended: for an owned non-DRAFT job, a PATCH body containing a key other
than `status` whose status value (if present) is valid is rejected with the
409 NotDraft conflict and the job is unchanged; and a body containing only a
valid `status` is accepted regardless of the current status, updating only the
status. -/
theorem patch_conflict_and_status_only (callerId : Nat) (job : Job) (b : JobPatchBody)
    (hown : job.recruiter_id = some callerId) :
    (job.status ≠ .DRAFT → b.hasNonStatusKey = true →
        (∀ s, b.status = some s → s = "DRAFT" ∨ s = "PUBLISHED") →
        patchJobRoute callerId (some job) b = (.notDraft, some job))
      ∧ (∀ s, (s = "DRAFT" ∨ s = "PUBLISHED") →
          patchJobRoute callerId (some job) { status := some s }
            = (.ok { job with status := (statusOfString s).getD job.status },
                some { job with status := (statusOfString s).getD job.status })) := by
  constructor
  · intro hnd hkey hval
    have hinv : statusValueInvalid b = false := by
      unfold statusValueInvalid
      cases hb : b.status with
      | none => rfl
      | some s =>
        rcases hval s hb with h | h <;> simp [h]
    simp [patchJobRoute, hown, hinv, hnd, hkey]
  · intro s hs
    rcases hs with h | h <;>
      simp [patchJobRoute, hown, h, statusValueInvalid, JobPatchBody.hasNonStatusKey,
        JobPatchBody.keyCount, applyJobPatch, statusOfString]

/-- Witness for `patch_conflict_and_status_only`: both branches evaluated on the
concrete PUBLISHED job `jPub`. -/
theorem patch_conflict_and_status_only_witness :
    patchJobRoute 1 (some jPub) { title := some "t" } = (.notDraft, some jPub)
      ∧ patchJobRoute 1 (some jPub) { status := some "DRAFT" }
          = (.ok { jPub with status := .DRAFT }, some { jPub with status := .DRAFT }) := by
  have h := patch_conflict_and_status_only 1 jPub { title := some "t" } rfl
  refine ⟨h.1 (by decide) (by decide) ?_, ?_⟩
  · intro s hs
    cases hs
  · have h2 := (patch_conflict_and_status_only 1 jPub { title := some "t" } rfl).2 "DRAFT" (Or.inl rfl)
    simpa [statusOfString] using h2

/-- Application status; db/schema.sql declares ENUM('APPLIED','PASSED','FAILED')
with default 'APPLIED'. -/
inductive AppStatus
  | APPLIED
  | PASSED
  | FAILED
deriving DecidableEq, Repr

/-- String form of a stored application status, as compared by the SQL filters. -/
def AppStatus.toStr : AppStatus → String
  | .APPLIED => "APPLIED"
  | .PASSED => "PASSED"
  | .FAILED => "FAILED"

/-- Embedded applications row. -/
structure Application where
  id : Nat
  job_id : Nat
  candidate_id : Nat
  status : AppStatus := .APPLIED
  source : Option String := none
  resume_url : Option String := none
  cover_letter : Option String := none
  score : Option Int := none
  tags : Option (List String) := none
  notes : Option String := none
deriving DecidableEq, Repr

/-- Database state touched by the embedded operations; list order stands in for
insertion order (the ORDER BY clauses of the list queries are abstracted, no
claim depends on row order). -/
structure DBState where
  jobs : List Job
  apps : List Application
  notifs : List NotificationRow
  nextAppId : Nat := 1
deriving DecidableEq, Repr

/-- getJobById from db.js: `SELECT * FROM jobs WHERE id = :id LIMIT 1`. -/
def getJobById (st : DBState) (id : Nat) : Option Job :=
  st.jobs.find? (fun j => j.id == id)

/-- Existence of a row with the given (job_id, candidate_id) pair, the condition
the UNIQUE KEY uniq_app_job_candidate rejects on insert. -/
def hasPair (st : DBState) (jid cand : Nat) : Bool :=
  st.apps.any (fun a => a.job_id == jid && a.candidate_id == cand)

/-- createApplication from db.js: the INSERT succeeds with the fresh id unless
the schema's UNIQUE KEY on (job_id, candidate_id) fires, which surfaces as the
ER_DUP_ENTRY error. -/
def createApplication (st : DBState) (jid cand : Nat) (source : Option String)
    (resume_url cover_letter : Option String) : Except Unit (Nat × DBState) :=
  if hasPair st jid cand then .error ()
  else .ok (st.nextAppId,
    { st with
      apps := st.apps ++ [{ id := st.nextAppId, job_id := jid, candidate_id := cand,
                            status := .APPLIED, source := source,
                            resume_url := resume_url, cover_letter := cover_letter }],
      nextAppId := st.nextAppId + 1 })

/-- countApplicationsByJob from db.js: `SELECT COUNT(*) ... WHERE job_id = :job_id`. -/
def countApplicationsByJob (st : DBState) (jid : Nat) : Nat :=
  (st.apps.filter (fun a => a.job_id == jid)).length

/-- listApplicationsByJob from db.js restricted to the fields the apply
notification uses (the application ids of up to `limit` rows for the job). -/
def listApplicationsByJob (st : DBState) (jid : Nat) (limit : Nat) : List Application :=
  (st.apps.filter (fun a => a.job_id == jid)).take limit

/-- Failure oracle for the fire-and-forget notification block of
POST /applications: each flag makes the corresponding awaited-inside-the-task
query or createNotification call throw (the handler catches all of them). -/
structure NotifyOracle where
  countFails : Bool := false
  recentFails : Bool := false
  candCreateFails : Bool := false
  recCreateFails : Bool := false
deriving DecidableEq, Repr

/-- Fire-and-forget notification block of POST /applications (candidate router
lines 193-247): the candidate confirmation, and when the job has a recruiter a
"New application" notification whose message degrades to the generic form when
the count sub-query fails and whose recent-applicants payload degrades to []
when the list sub-query fails; a failing createNotification is settled and
simply persists nothing. -/
def applyNotifications (o : NotifyOracle) (job : Job) (cand : Nat) (st : DBState) :
    List NotificationRow :=
  let candNotif : List NotificationRow :=
    if o.candCreateFails then [] else
      [{ user_id := cand, type := some "APPLICATION", title := "Application received",
         message := some ("Your application to " ++ job.title ++ " was received.") }]
  let recNotif : List NotificationRow :=
    match job.recruiter_id with
    | none => []
    | some rid =>
      let msg :=
        if o.countFails then
          "You’ve got new applicants for the " ++ job.title ++
            " position. Tap here to review them now."
        else
          "You’ve got " ++ toString (countApplicationsByJob st job.id) ++
            " new applicants for the " ++ job.title ++
            " position. Tap here to review them now."
      let recent : List Nat :=
        if o.recentFails then [] else (listApplicationsByJob st job.id 5).map (fun a => a.id)
      if o.recCreateFails then [] else
        [{ user_id := rid, type := some "APPLICATION", title := "New application",
           message := some msg, data_recent := recent }]
  candNotif ++ recNotif

/-- Result of POST /applications in the candidate router. -/
inductive ApplyRes
  | validationError
  | notFound
  | conflict
  | created (id : Nat)
deriving DecidableEq, Repr

/-- POST /applications handler (candidate router lines 172-260): 404 unless the
job exists and is PUBLISHED, then createApplication with source 'APPLY'
(translating ER_DUP_ENTRY to the 409 AlreadyApplied conflict), then the
fire-and-forget notification block, whose outcome never changes the 201
response carrying the new application id. -/
def applyRoute (cand jid : Nat) (resume_url cover_letter : Option String)
    (o : NotifyOracle) (st : DBState) : ApplyRes × DBState :=
  match getJobById st jid with
  | none => (.notFound, st)
  | some job =>
    if job.status ≠ .PUBLISHED then (.notFound, st)
    else
      match createApplication st jid cand (some "APPLY") resume_url cover_letter with
      | .error _ => (.conflict, st)
      | .ok (id, st') =>
        (.created id, { st' with notifs := st'.notifs ++ applyNotifications o job cand st' })

/-- Per-pair uniqueness of the applications table: no two rows share a
(job_id, candidate_id) pair. -/
def UniquePairs (l : List Application) : Prop :=
  l.Pairwise (fun a b => ¬(a.job_id = b.job_id ∧ a.candidate_id = b.candidate_id))

/-- States reachable by the embedded operations that can create application
rows: any application-free initial state, arbitrary changes to the jobs table
(which no job route lets touch applications), and the apply handler. -/
inductive Reachable : DBState → Prop
  | init (jobs : List Job) :
      Reachable { jobs := jobs, apps := [], notifs := [], nextAppId := 1 }
  | jobsStep (st : DBState) (jobs : List Job) :
      Reachable st → Reachable { st with jobs := jobs }
  | applyStep (st : DBState) (cand jid : Nat) (r c : Option String) (o : NotifyOracle) :
      Reachable st → Reachable (applyRoute cand jid r c o st).2

/-- Helper: the apply handler preserves per-pair uniqueness of applications. -/
theorem uniquePairs_applyRoute (cand jid : Nat) (r c : Option String)
    (o : NotifyOracle) (st : DBState) (h : UniquePairs st.apps) :
    UniquePairs (applyRoute cand jid r c o st).2.apps := by
  unfold applyRoute
  cases hj : getJobById st jid with
  | none => simpa using h
  | some job =>
    by_cases hs : job.status = .PUBLISHED
    · unfold createApplication
      by_cases hp : hasPair st jid cand
      · simpa [hs, hp] using h
      · simp only [hs, hp]
        simp only [UniquePairs, ne_eq, not_true_eq_false, if_false, Bool.false_eq_true,
          if_neg, reduceIte]
        unfold UniquePairs at h
        simp only [List.pairwise_append, List.pairwise_cons, List.mem_singleton]
        refine ⟨h, by simp, ?_⟩
        intro a ha b hb
        subst hb
        simp only [hasPair, List.any_eq_true, not_exists, not_and] at hp
        intro hab
        have := hp a ha
        simp only [Bool.and_eq_true, beq_iff_eq] at this
        exact this ⟨hab.1, hab.2⟩
    · simpa [hs] using h

/-- C5: every reachable state has at most one application row per
(job_id, candidate_id) pair, and a second apply with an existing pair (the job
still being present and PUBLISHED) answers 409 Conflict and leaves the state,
in particular the applications table, unchanged. -/
theorem applications_unique_and_second_apply_conflicts :
    (∀ st : DBState, Reachable st → UniquePairs st.apps)
      ∧ (∀ (st : DBState) (cand jid : Nat) (r c : Option String) (o : NotifyOracle)
          (job : Job), getJobById st jid = some job → job.status = .PUBLISHED →
          hasPair st jid cand = true →
          applyRoute cand jid r c o st = (.conflict, st)) := by
  constructor
  · intro st h
    induction h with
    | init jobs => simp [UniquePairs]
    | jobsStep st jobs _ ih => exact ih
    | applyStep st cand jid r c o _ ih => exact uniquePairs_applyRoute cand jid r c o st ih
  · intro st cand jid r c o job hj hs hp
    simp [applyRoute, hj, hs, createApplication, hp]

/-- Initial state holding just the published job `jPub`. -/
def stw0 : DBState := { jobs := [jPub], apps := [], notifs := [], nextAppId := 1 }

/-- State after candidate 2 successfully applies to job 7 in `stw0`. -/
def stw1 : DBState := (applyRoute 2 7 none none {} stw0).2

/-- Witness for `applications_unique_and_second_apply_conflicts`: the invariant
holds at the concrete reachable state `stw1`, and the duplicate apply there
answers Conflict without changing the state. -/
theorem applications_unique_witness :
    UniquePairs stw1.apps ∧ applyRoute 2 7 none none {} stw1 = (.conflict, stw1) := by
  have h := applications_unique_and_second_apply_conflicts
  refine ⟨h.1 stw1 ?_, h.2 stw1 2 7 none none {} jPub (by decide) rfl (by decide)⟩
  exact Reachable.applyStep _ 2 7 none none {} (Reachable.init [jPub])

/-- C7: for every notification failure oracle, a successful apply still answers
201 Created with the fresh application id and the application row is persisted
identically — notification-creation failures are invisible to the caller and
to the applications table. -/
theorem apply_result_independent_of_notification_failures
    (st : DBState) (cand jid : Nat) (r c : Option String) (o : NotifyOracle) (job : Job)
    (hj : getJobById st jid = some job) (hs : job.status = .PUBLISHED)
    (hdup : hasPair st jid cand = false) :
    (applyRoute cand jid r c o st).1 = .created st.nextAppId
      ∧ (applyRoute cand jid r c o st).2.apps
          = st.apps ++ [{ id := st.nextAppId, job_id := jid, candidate_id := cand,
                          status := .APPLIED, source := some "APPLY",
                          resume_url := r, cover_letter := c }] := by
  simp [applyRoute, hj, hs, createApplication, hdup]

/-- Witness for `apply_result_independent_of_notification_failures`: evaluated
on `stw0` with the all-failures oracle. -/
theorem apply_independent_witness :
    (applyRoute 2 7 none none ⟨true, true, true, true⟩ stw0).1 = .created 1
      ∧ (applyRoute 2 7 none none ⟨true, true, true, true⟩ stw0).2.apps
          = [{ id := 1, job_id := 7, candidate_id := 2, status := .APPLIED,
               source := some "APPLY", resume_url := none, cover_letter := none }] := by
  have h := apply_result_independent_of_notification_failures stw0 2 7 none none
    ⟨true, true, true, true⟩ jPub (by decide) rfl (by decide)
  simpa [stw0] using h

/-- Request body of PATCH /applications/:id in the recruiter router (zod
PatchSchema: optional status, score, tags, notes). -/
structure AppPatch where
  status : Option AppStatus := none
  score : Option Int := none
  tags : Option (List String) := none
  notes : Option String := none
deriving DecidableEq, Repr

/-- updateApplication from db.js: each field present in the patch is written,
the rest keep their value. -/
def updateApplication (a : Application) (p : AppPatch) : Application :=
  { a with
    status := p.status.getD a.status
    score := match p.score with | some v => some v | none => a.score
    tags := match p.tags with | some t => some t | none => a.tags
    notes := match p.notes with | some n => some n | none => a.notes }

/-- PatchSchema validation: score within 0..100, tags nonempty strings, notes
at most 20000 characters. -/
def appPatchInvalid (p : AppPatch) : Bool :=
  (match p.score with | some v => decide (v < 0 ∨ 100 < v) | none => false)
    || (match p.tags with | some ts => ts.any (fun t => t.isEmpty) | none => false)
    || (match p.notes with | some n => decide (20000 < n.length) | none => false)

/-- Emptiness of the effective patch, the affectedRows = 0 case of
updateApplication. -/
def AppPatch.isEmptyPatch (p : AppPatch) : Bool :=
  p.status.isNone && p.score.isNone && p.tags.isNone && p.notes.isNone

/-- Result of PATCH /applications/:id in the recruiter router. -/
inductive AppPatchRes
  | notFound
  | forbidden
  | validationError
  | ok (a : Application)
deriving DecidableEq, Repr

/-- PATCH /applications/:id handler (recruiter router lines 201-229): detail
lookup joining the application to its job, ownership check against the job's
recruiter, zod validation, then updateApplication; an empty-effect patch
answers with the current application. The handler contains no
createNotification call, so the notifications table is returned untouched. -/
def patchApplicationRoute (caller appId : Nat) (p : AppPatch) (st : DBState) :
    AppPatchRes × DBState :=
  match st.apps.find? (fun a => a.id == appId) with
  | none => (.notFound, st)
  | some app =>
    match getJobById st app.job_id with
    | none => (.notFound, st)
    | some job =>
      if job.recruiter_id ≠ some caller then (.forbidden, st)
      else if appPatchInvalid p then (.validationError, st)
      else if p.isEmptyPatch then (.ok app, st)
      else
        let updated := updateApplication app p
        (.ok updated,
          { st with apps := st.apps.map (fun a => if a.id == appId then updated else a) })

/-- Application of candidate 2 to job 7, still in the APPLIED state. -/
def app6 : Application :=
  { id := 1, job_id := 7, candidate_id := 2, status := .APPLIED, source := some "APPLY" }

/-- State holding `jPub` and the APPLIED application `app6`, no notifications. -/
def st6 : DBState := { jobs := [jPub], apps := [app6], notifs := [], nextAppId := 2 }

/-- C6: a status-changing application update succeeds (APPLIED becomes PASSED)
yet schedules no notification at all: the notifications table after the update
is exactly the one before, so no status-change notification addressed to the
candidate (or anyone) is created, contradicting the claimed behaviour (which
the repository README documents as an APPLICATION_STATUS_UPDATE notification
to the candidate). -/
theorem status_update_schedules_no_notification :
    (patchApplicationRoute 1 1 { status := some .PASSED } st6).1
        = .ok { app6 with status := .PASSED }
      ∧ (patchApplicationRoute 1 1 { status := some .PASSED } st6).2.apps
          = [{ app6 with status := .PASSED }]
      ∧ (patchApplicationRoute 1 1 { status := some .PASSED } st6).2.notifs = st6.notifs
      ∧ (patchApplicationRoute 1 1 { status := some .PASSED } st6).2.notifs = [] := by
  refine ⟨rfl, rfl, rfl, rfl⟩

/-- markNotificationRead from db.js:
`UPDATE notifications SET read_at = COALESCE(read_at, CURRENT_TIMESTAMP)`. -/
def markNotificationRead (now : Nat) (n : NotificationRow) : NotificationRow :=
  { n with read_at := some (n.read_at.getD now) }

/-- Derived `read` field of the notification view returned by
getNotificationById: `read: !!row.read_at`. -/
def notifRead (n : NotificationRow) : Bool := n.read_at.isSome

/-- Result of POST /notifications/:id/read (candidate and recruiter routers):
the ok case carries the re-fetched notification together with its derived
`read` field. -/
inductive ReadRes
  | notFound
  | forbidden
  | ok (n : NotificationRow) (read : Bool)
deriving DecidableEq, Repr

/-- POST /notifications/:id/read handler: 404 / 403 checks, then
markNotificationRead and a re-fetch of the updated row. -/
def readNotificationRoute (caller now : Nat) (n? : Option NotificationRow) :
    ReadRes × Option NotificationRow :=
  match n? with
  | none => (.notFound, none)
  | some n =>
    if n.user_id ≠ caller then (.forbidden, some n)
    else
      let updated := markNotificationRead now n
      (.ok updated (notifRead updated), some updated)

/-- C8: on an unread notification the first mark-read sets read_at to the
current (non-null) timestamp; every later mark-read, at any time, leaves the
row unchanged, and the read route then returns exactly the already-read row
with the derived read flag equal to read_at being non-null (true). -/
theorem mark_notification_read_idempotent (n : NotificationRow) (t t' : Nat)
    (h : n.read_at = none) :
    (markNotificationRead t n).read_at = some t
      ∧ markNotificationRead t' (markNotificationRead t n) = markNotificationRead t n
      ∧ readNotificationRoute n.user_id t' (some (markNotificationRead t n))
          = (.ok (markNotificationRead t n)
              (decide ((markNotificationRead t n).read_at ≠ none)),
             some (markNotificationRead t n)) := by
  refine ⟨by simp [markNotificationRead, h], ?_, ?_⟩
  · simp [markNotificationRead, h]
  · simp [readNotificationRoute, markNotificationRead, notifRead, h]

/-- Unread notification used to witness the idempotence theorem. -/
def n8 : NotificationRow :=
  { user_id := 3, type := some "APPLICATION", title := "Application received",
    message := none, read_at := none }

/-- Witness for `mark_notification_read_idempotent` at the concrete unread
notification `n8` with timestamps 10 and 20. -/
theorem mark_notification_read_idempotent_witness :
    (markNotificationRead 10 n8).read_at = some 10
      ∧ markNotificationRead 20 (markNotificationRead 10 n8) = markNotificationRead 10 n8
      ∧ readNotificationRoute 3 20 (some (markNotificationRead 10 n8))
          = (.ok (markNotificationRead 10 n8) true, some (markNotificationRead 10 n8)) := by
  have h := mark_notification_read_idempotent n8 10 20 rfl
  exact ⟨h.1, h.2.1, by simpa using h.2.2⟩

/-- AppStatus validation set of the candidate router (line 161): the legacy
six-value enum, not the stored three-value enum of the schema. -/
def legacyAppStatuses : List String :=
  ["APPLIED", "SCREENING", "INTERVIEW", "OFFER", "HIRED", "REJECTED"]

/-- listApplicationsByCandidate from db.js: candidate filter, optional status
equality filter against the stored enum value, OFFSET then LIMIT. -/
def listApplicationsByCandidate (st : DBState) (cand : Nat) (status? : Option String)
    (limit offset : Nat) : List Application :=
  (((st.apps.filter (fun a =>
      a.candidate_id == cand
        && (match status? with | some s => a.status.toStr == s | none => true))).drop
    offset).take limit)

/-- Result of GET /applications in the candidate router. -/
inductive ListAppsRes
  | validationError
  | ok (apps : List Application)
deriving DecidableEq, Repr

/-- GET /applications handler (candidate router lines 263-280): the status
query parameter is validated against the legacy six-value enum (400 on
anything else), then listApplicationsByCandidate runs with the default
limit 50 / offset 0. -/
def listApplicationsRoute (cand : Nat) (status? : Option String) (st : DBState) :
    ListAppsRes :=
  match status? with
  | some s =>
    if legacyAppStatuses.contains s then
      .ok (listApplicationsByCandidate st cand (some s) 50 0)
    else .validationError
  | none => .ok (listApplicationsByCandidate st cand none 50 0)

/-- Helper: when the requested status string is not the string form of any
stored status, the candidate listing is empty. -/
theorem listByCandidate_no_stored_status (st : DBState) (cand : Nat) (s : String)
    (hs : ∀ a : AppStatus, a.toStr ≠ s) :
    listApplicationsByCandidate st cand (some s) 50 0 = [] := by
  unfold listApplicationsByCandidate
  have hfil : st.apps.filter
      (fun a => a.candidate_id == cand
        && (match some s with | some s => a.status.toStr == s | none => true)) = [] := by
    rw [List.filter_eq_nil_iff]
    intro a _
    simp [hs a.status]
  rw [hfil]
  simp

/-- C10: the candidate list-applications endpoint rejects the stored statuses
PASSED and FAILED with a 400 ValidationError, while each of the legacy-only
values SCREENING, INTERVIEW, OFFER, HIRED and REJECTED passes validation and
always produces the empty list, no stored row being able to carry them. -/
theorem legacy_status_filter (st : DBState) (cand : Nat) :
    listApplicationsRoute cand (some "PASSED") st = .validationError
      ∧ listApplicationsRoute cand (some "FAILED") st = .validationError
      ∧ listApplicationsRoute cand (some "SCREENING") st = .ok []
      ∧ listApplicationsRoute cand (some "INTERVIEW") st = .ok []
      ∧ listApplicationsRoute cand (some "OFFER") st = .ok []
      ∧ listApplicationsRoute cand (some "HIRED") st = .ok []
      ∧ listApplicationsRoute cand (some "REJECTED") st = .ok [] := by
  have h : ∀ s : String, (∀ a : AppStatus, a.toStr ≠ s) →
      legacyAppStatuses.contains s = true →
      listApplicationsRoute cand (some s) st = .ok [] := by
    intro s hs hmem
    simp only [listApplicationsRoute, hmem, if_true,
      listByCandidate_no_stored_status st cand s hs]
  refine ⟨by simp [listApplicationsRoute, legacyAppStatuses],
    by simp [listApplicationsRoute, legacyAppStatuses], ?_, ?_, ?_, ?_, ?_⟩ <;>
  · apply h
    · intro a
      cases a <;> simp [AppStatus.toStr]
    · rfl

/-! ### PDF heuristic extractor (src/src/utils/pdf.js)

The extractor is embedded from the decoded document text onward (the
pdf-parse decoding step is external). Text processing is carried out over
`List Char` so that every definition reduces in the kernel; a line is a
character list and `String.mk` converts results back at the boundary. The
JavaScript regexes become explicit matchers: a header pattern maps a line to
the list of possible remainders after the header matched at the start of the
line (in backtracking order), which captures the `^`-anchored,
case-insensitive header regexes of getInlineValue / getNextLineValue and the
blacklist of guessTitle. The `suggested` object's delete-undefined step is
rendered by `Option`: a `none` field is a key absent from the returned
object. The embedding covers the scalar fields title, company_name, location
and salary (the fields the claim constrains; the remaining fields of
`suggested` are computed independently by the source and do not influence
these four). -/

/-- Line of text as a character list. -/
abbrev Line := List Char

/-- JavaScript word character, for `\b` boundaries. -/
def isWordChar (ch : Char) : Bool := ch.isAlphanum || ch == '_'

/-- Case-insensitive literal match at the start of a line; yields the
remainder. The literal is given in lowercase. -/
def stripLitCI : List Char → Line → Option Line
  | [], cs => some cs
  | _, [] => none
  | l :: ls, c :: cs => if c.toLower == l then stripLitCI ls cs else none

/-- `\s*`: drop leading whitespace. -/
def stripWs (cs : Line) : Line := cs.dropWhile Char.isWhitespace

/-- JavaScript String.trim on a line. -/
def trimChars (cs : Line) : Line :=
  ((cs.dropWhile Char.isWhitespace).reverse.dropWhile Char.isWhitespace).reverse

/-- Split on a character predicate, like String.split (empty chunks kept). -/
def splitOnPred (p : Char → Bool) : Line → List Line
  | [] => [[]]
  | c :: rest =>
    let r := splitOnPred p rest
    if p c then [] :: r else (c :: r.headD []) :: r.tail

/-- normalizeLines from pdf.js: carriage returns become newlines, the text is
split on newlines, each line is NBSP-cleaned and trimmed, blank lines are
dropped. -/
def normalizeLines (text : List Char) : List Line :=
  ((splitOnPred (fun c => c == '\n')
      (text.map (fun c => if c == '\r' then '\n' else c))).map
    (fun l => trimChars (l.map (fun c => if c == Char.ofNat 160 then ' ' else c)))).filter
    (fun l => !l.isEmpty)

/-- `lines.join('\n')` building the fullText of the extractor. -/
def joinNl : List Line → Line
  | [] => []
  | [l] => l
  | l :: rest => l ++ '\n' :: joinNl rest

/-- Header pattern `job\s*title`. -/
def hdrJobTitle (s : Line) : List Line :=
  match stripLitCI "job".toList s with
  | none => []
  | some r => (stripLitCI "title".toList (stripWs r)).toList

/-- Header pattern `location`. -/
def hdrLocation (s : Line) : List Line := (stripLitCI "location".toList s).toList

/-- Header pattern `company(?:\s*name)?`: the remainder with `name` consumed is
tried before the remainder without it, as the greedy optional group does. -/
def hdrCompany (s : Line) : List Line :=
  match stripLitCI "company".toList s with
  | none => []
  | some r =>
    (match stripLitCI "name".toList (stripWs r) with
     | some r2 => [r2]
     | none => []) ++ [r]

/-- Header pattern `employer`. -/
def hdrEmployer (s : Line) : List Line := (stripLitCI "employer".toList s).toList

/-- Header pattern `salary`. -/
def hdrSalary (s : Line) : List Line := (stripLitCI "salary".toList s).toList

/-- Header pattern `compensation`. -/
def hdrCompensation (s : Line) : List Line :=
  (stripLitCI "compensation".toList s).toList

/-- Header pattern `pay\b`. -/
def hdrPay (s : Line) : List Line :=
  match stripLitCI "pay".toList s with
  | none => []
  | some r =>
    match r with
    | [] => [r]
    | c :: _ => if isWordChar c then [] else [r]

/-- Header pattern `job\s*type`. -/
def hdrJobType (s : Line) : List Line :=
  match stripLitCI "job".toList s with
  | none => []
  | some r => (stripLitCI "type".toList (stripWs r)).toList

/-- Plain literal header pattern. -/
def litPat (lit : String) (s : Line) : List Line := (stripLitCI lit.toList s).toList

/-- Remainder of getInlineValue's regex after the header matched:
`\s*[:\-]\s*(.+)$` followed by the JavaScript `.trim()` on the capture (an
all-whitespace tail captures a single whitespace character after backtracking,
trimming to the empty string, which the `||` chains at the call sites treat as
absent). -/
def inlineAfter (rest : Line) : Option Line :=
  match stripWs rest with
  | [] => none
  | c :: v =>
    if c == ':' || c == '-' then
      if v.isEmpty then none else some (trimChars v)
    else none

/-- getInlineValue from pdf.js: outer loop over the header patterns, inner loop
over the lines, returning the first trimmed same-line value. -/
def getInlineValue (pats : List (Line → List Line)) (lines : List Line) :
    Option Line :=
  pats.findSome? (fun pat =>
    lines.findSome? (fun line => (pat line).findSome? inlineAfter))

/-- getNextLineValue from pdf.js: outer loop over the lines; on a line some
header pattern matches, the next line's trimmed text is returned when
nonempty, otherwise scanning continues. -/
def getNextLineValue (pats : List (Line → List Line)) :
    List Line → Option Line
  | [] => none
  | line :: rest =>
    if pats.any (fun pat => !(pat line).isEmpty) then
      match rest.head? with
      | some next =>
        if (trimChars next).isEmpty then getNextLineValue pats rest
        else some (trimChars next)
      | none => getNextLineValue pats rest
    else getNextLineValue pats rest

/-- JavaScript `||` on the option-with-empty-string-falsy values produced by
the extractor helpers. -/
def jsOr (a b : Option Line) : Option Line :=
  match a with
  | some s => if s.isEmpty then b else some s
  | none => b

/-- Blacklist test of guessTitle: one of the known header alternatives matches
at the start of the line and is followed by a `\b` word boundary. -/
def titleBlacklisted (l : Line) : Bool :=
  ([hdrJobTitle, hdrCompany, hdrLocation, hdrJobType, litPat "salary",
      litPat "compensation", litPat "description", litPat "overview",
      litPat "responsibilities", litPat "requirements",
      litPat "qualifications"]).any
    (fun pat => (pat l).any (fun r =>
      match r with
      | [] => true
      | c :: _ => !isWordChar c))

/-- Word count of `l.split(/\s+/)` on a trimmed line. -/
def wordCount (l : Line) : Nat :=
  ((splitOnPred Char.isWhitespace l).filter (fun w => !w.isEmpty)).length

/-- Matcher for `\s+\|\s+` at the start of a character list. -/
def pipeAt (cs : Line) : Bool :=
  match cs with
  | c :: _ =>
    c.isWhitespace &&
      (match cs.dropWhile Char.isWhitespace with
       | '|' :: c2 :: _ => c2.isWhitespace
       | _ => false)
  | [] => false

/-- Index of the first match of `\s+\|\s+` in a character list. -/
def findPipeIdx : Line → Option Nat
  | [] => none
  | c :: rest =>
    if pipeAt (c :: rest) then some 0
    else (findPipeIdx rest).map (· + 1)

/-- The `l.replace(/\s+\|\s+.*$/, '')` step of guessTitle. -/
def stripPipeSuffix (l : Line) : Line :=
  match findPipeIdx l with
  | some i => l.take i
  | none => l

/-- guessTitle from pdf.js: the first line that is not a known header and has
at least two words, with any ` | ...` suffix removed. -/
def guessTitle (lines : List Line) : Option Line :=
  lines.findSome? (fun l =>
    if !titleBlacklisted l && wordCount l ≥ 2 then some (stripPipeSuffix l) else none)

/-- First maximal digit run of a character list. -/
def firstDigitRun : Line → Option Line
  | [] => none
  | c :: rest =>
    if c.isDigit then some (c :: rest.takeWhile Char.isDigit) else firstDigitRun rest

/-- Decimal value of a digit list. -/
def digitsToNat (ds : Line) : Nat :=
  ds.foldl (fun acc c => acc * 10 + (c.toNat - 48)) 0

/-- parseInteger from pdf.js: falsy input yields nothing; otherwise commas and
whitespace are removed and the first match of `(\d{3,}|\d{1,2})` is taken (the
whole first digit run when it has three or more digits, otherwise its first at
most two digits). -/
def parseInteger (str? : Option Line) : Option Nat :=
  match str? with
  | none => none
  | some str =>
    if str.isEmpty then none
    else
      match firstDigitRun (str.filter (fun c => !(c == ',') && !c.isWhitespace)) with
      | none => none
      | some run =>
        some (digitsToNat (if run.length ≥ 3 then run else run.take 2))

/-- Scalar portion of the `suggested` object returned by
extractJobFieldsFromPdf; a `none` field is a key deleted by the final
delete-undefined loop, so it is absent from the returned object (never null). -/
structure JobFieldsSuggested where
  title : Option String := none
  company_name : Option String := none
  location : Option String := none
  salary : Option Nat := none
deriving DecidableEq, Repr

/-- extractJobFieldsFromPdf from pdf.js, from the decoded text onward: lines
are normalized, each scalar field is resolved by the inline-value /
next-line-value / whole-document fallbacks of the source, and salary falls
back to scanning the full text through parseInteger. -/
def extractJobFields (text : String) : JobFieldsSuggested :=
  let lines := normalizeLines text.toList
  let fullText := joinNl lines
  let title :=
    jsOr (jsOr (getInlineValue [hdrJobTitle] lines) (getNextLineValue [hdrJobTitle] lines))
      (guessTitle lines)
  let company_name :=
    jsOr (getInlineValue [hdrCompany, hdrEmployer] lines)
      (getNextLineValue [hdrCompany, hdrEmployer] lines)
  let location :=
    jsOr (getInlineValue [hdrLocation] lines) (getNextLineValue [hdrLocation] lines)
  let salaryRaw :=
    jsOr (getInlineValue [hdrSalary, hdrCompensation, hdrPay] lines)
      (getNextLineValue [hdrSalary, hdrCompensation, hdrPay] lines)
  let salary := parseInteger (jsOr salaryRaw (some fullText))
  { title := title.map String.mk, company_name := company_name.map String.mk,
    location := location.map String.mk, salary := salary }

/-- Document text of the extractor scenario. -/
def c9text : String := "Job Title: Backend Engineer\nLocation: Remote"

/-- C9: on the text "Job Title: Backend Engineer\nLocation: Remote" the
extractor returns title "Backend Engineer" and location "Remote", and the
salary key is absent from the result (none, i.e. deleted, not null or a
placeholder). -/
theorem pdf_extractor_scenario :
    extractJobFields c9text
      = { title := some "Backend Engineer", company_name := none,
          location := some "Remote", salary := none } := by
  decide

end HeyHR
